import Mathlib

/-!
Verification of `apex::pthread_wrapper` (src/src/apex/pthread_wrapper.hpp).

The class wraps a single detached pthread together with a mutex, a
condition variable, an atomic termination flag `done`, atomic `running`
and `attached` flags, and a configurable timeout in microseconds.  The
two operations the claims concern are `stop_thread` (lines 89-119) and
`wait` (lines 127-169, the non-Kitten branch), plus `set_timeout`
(lines 84-86).

The embedding below is a shallow one: the effectful pthread calls are
replaced by an environment record carrying the values the OS would
return (the current wall-clock time from `gettimeofday`, the return
code of `pthread_cond_timedwait`, the return code of `pthread_join`),
and each operation is a pure function from its inputs and that
environment to a record (or event trace) of everything observable it
did: its return value, the deadline it handed to the timed wait, which
mutex operations it invoked, whether it joined, warned or busy-polled.
-/

namespace apex

/-- `#define MILLION 1000000` (line 18). -/
def MILLION : Nat := 1000000

/-- Linux errno value for `ETIMEDOUT`. -/
def ETIMEDOUT : Nat := 110

/-- Linux errno value for `EINVAL`. -/
def EINVAL : Nat := 22

/-- Linux errno value for `EPERM`. -/
def EPERM : Nat := 1

/-- Linux errno value for `ESRCH`. -/
def ESRCH : Nat := 3

/-- Linux errno value for `EDEADLK`. -/
def EDEADLK : Nat := 35

/-- `struct timeval` as filled in by `gettimeofday`: seconds and
microseconds.  On Linux `gettimeofday` always yields
`0 ≤ tv_usec < 1000000`; theorems carry that bound as a hypothesis. -/
structure Timeval where
  tv_sec : Nat
  tv_usec : Nat
deriving Repr, DecidableEq

/-- `struct timespec` as built by `wait()`: seconds and nanoseconds. -/
structure Timespec where
  tv_sec : Nat
  tv_nsec : Nat
deriving Repr, DecidableEq

/-- The absolute-deadline computation inlined in `wait()`
(lines 144-156): split the configured timeout into whole seconds
`timeout / MILLION` and remainder `timeout % MILLION`, add the
remainder to the current microseconds, carry one second when the sum
is strictly greater than `MILLION`, and convert the microsecond
remainder to nanoseconds by multiplying by 1000. -/
def computeDeadline (timeout : Nat) (now : Timeval) : Timespec :=
  let seconds := timeout / MILLION
  let microseconds := timeout % MILLION
  let tmp := now.tv_usec + microseconds
  if tmp > MILLION then
    { tv_sec := now.tv_sec + (seconds + 1), tv_nsec := 1000 * (tmp - MILLION) }
  else
    { tv_sec := now.tv_sec + seconds, tv_nsec := 1000 * tmp }

/-- Environment for one call to `wait()`: the wall-clock time returned
by `gettimeofday` and the return code of `pthread_cond_timedwait`. -/
structure WaitEnv where
  now : Timeval
  rc : Nat
deriving Repr, DecidableEq

/-- Everything observable a call to `wait()` did: its boolean return
value, the deadline it passed to `pthread_cond_timedwait` (`none` when
it returned before computing one), and which of the mutex / timed-wait
calls it made. -/
structure WaitResult where
  retval : Bool
  deadline : Option Timespec
  lockedMutex : Bool
  calledTimedwait : Bool
  unlockCalled : Bool
deriving Repr, DecidableEq

/-- `pthread_wrapper::wait` (lines 127-169, the
`pthread_cond_timedwait` branch).  `done` is the atomic termination
flag read at entry, `timeout` is `_timeout_microseconds` read at
entry, and `env` supplies the OS results.  Mirrors the source: an
early `false` return when `done` is set; otherwise compute the
deadline, lock the mutex, run the timed wait, then return `true` on
`ETIMEDOUT`, unlock and return `false` on `EINVAL`, return `false`
without unlocking on `EPERM`, and fall through to `return true` for
every other return code. -/
def wait (done : Bool) (timeout : Nat) (env : WaitEnv) : WaitResult :=
  if done then
    { retval := false, deadline := none, lockedMutex := false,
      calledTimedwait := false, unlockCalled := false }
  else
    let ts := computeDeadline timeout env.now
    if env.rc = ETIMEDOUT then
      { retval := true, deadline := some ts, lockedMutex := true,
        calledTimedwait := true, unlockCalled := false }
    else if env.rc = EINVAL then
      { retval := false, deadline := some ts, lockedMutex := true,
        calledTimedwait := true, unlockCalled := true }
    else if env.rc = EPERM then
      { retval := false, deadline := some ts, lockedMutex := true,
        calledTimedwait := true, unlockCalled := false }
    else
      { retval := true, deadline := some ts, lockedMutex := true,
        calledTimedwait := true, unlockCalled := false }

/-- The observable actions of `stop_thread`, in program order. -/
inductive StopEvent where
  | setDone
  | signalCond
  | joinCall (rc : Nat)
  | warn
  | pollRunning
deriving Repr, DecidableEq

/-- Environment for one call to `stop_thread`: the values of the
atomic `_running` and `_attached` flags at the `if` on line 98, and
the return code `pthread_join` would yield if called. -/
structure StopEnv where
  running : Bool
  attached : Bool
  joinRc : Nat
deriving Repr, DecidableEq

/-- `pthread_wrapper::stop_thread` (lines 89-119) as the trace of its
observable actions.  Mirrors the source: set `done`, signal the
condition variable, and only if `_running && _attached` attempt the
join; a join returning `ESRCH`, `EINVAL` or `EDEADLK` makes the
method return silently, any other nonzero code makes it warn
(`perror`) and return, and only a successful join (or a skipped one)
reaches the `while (_running.load()) {}` busy-poll on line 118. -/
def stop_thread (env : StopEnv) : List StopEvent :=
  StopEvent.setDone :: StopEvent.signalCond ::
    (if env.running && env.attached then
      StopEvent.joinCall env.joinRc ::
        (if env.joinRc = 0 then [StopEvent.pollRunning]
         else if env.joinRc = ESRCH then []
         else if env.joinRc = EINVAL then []
         else if env.joinRc = EDEADLK then []
         else [StopEvent.warn])
     else [StopEvent.pollRunning])

/-- The mutable wrapper state the claims about `set_timeout` need:
the termination flag and the configured timeout. -/
structure WrapperState where
  done : Bool
  timeout : Nat
deriving Repr, DecidableEq

/-- `pthread_wrapper::set_timeout` (lines 84-86): overwrite the
configured timeout, touching nothing else. -/
def set_timeout (s : WrapperState) (timeout_microseconds : Nat) : WrapperState :=
  { s with timeout := timeout_microseconds }

/-- `wait()` invoked on a wrapper state: the `done` flag and the
timeout are both read from the state at entry. -/
def waitState (s : WrapperState) (env : WaitEnv) : WaitResult :=
  wait s.done s.timeout env

/-- Claim C1, counterexample: with `running = true`, `attached = true`
and the join failing with `ESRCH`, `stop_thread` attempts the join and
then returns without ever busy-polling on `running`, contradicting the
claim that a failed join is followed by the busy-poll. -/
theorem stop_thread_failed_join_skips_poll :
    StopEvent.joinCall ESRCH ∈ stop_thread ⟨true, true, ESRCH⟩ ∧
    ESRCH ≠ 0 ∧
    StopEvent.pollRunning ∉ stop_thread ⟨true, true, ESRCH⟩ := by
  decide

/-- Claim C1, amended: `stop_thread` busy-polls on `running` exactly
when the join was skipped (because `running` or `attached` was false)
or the join succeeded; when the join fails with any nonzero code the
method returns immediately without polling. -/
theorem stop_thread_poll_iff_skipped_or_joined (env : StopEnv) :
    StopEvent.pollRunning ∈ stop_thread env ↔
      (¬(env.running = true ∧ env.attached = true) ∨ env.joinRc = 0) := by
  rcases env with ⟨r, a, j⟩
  cases r <;> cases a <;>
    simp only [stop_thread, Bool.and_self, Bool.and_true, Bool.and_false,
      Bool.true_and, Bool.false_and, if_true, if_false] <;>
    split_ifs <;> simp_all

/-- Claim C2: for a current time `(S, U)` with `U < 1000000` and a
configured timeout `T`, the deadline is built from the whole seconds
`T / 1000000` and the remainder `T % 1000000`; when `U` plus the
remainder strictly exceeds one million the computation carries exactly
one extra second and wraps the microsecond remainder, and otherwise it
adds them directly; and this is exactly the deadline `wait` hands to
the timed wait. -/
theorem wait_deadline_split_and_carry (S U T : Nat) (hU : U < MILLION)
    (hT : T < 2 ^ 32) :
    (U + T % MILLION > MILLION →
      computeDeadline T ⟨S, U⟩ =
        ⟨S + (T / MILLION + 1), 1000 * (U + T % MILLION - MILLION)⟩) ∧
    (¬ U + T % MILLION > MILLION →
      computeDeadline T ⟨S, U⟩ =
        ⟨S + T / MILLION, 1000 * (U + T % MILLION)⟩) ∧
    (∀ rc, (wait false T ⟨⟨S, U⟩, rc⟩).deadline =
      some (computeDeadline T ⟨S, U⟩)) := by
  refine ⟨fun h => ?_, fun h => ?_, fun rc => ?_⟩
  · simp only [computeDeadline]
    rw [if_pos h]
  · simp only [computeDeadline]
    rw [if_neg h]
  · simp only [wait]
    split_ifs <;> first | rfl | simp_all

/-- Claim C2 witness: now = (5, 900000), timeout 300000 gives the
deadline (6, 200000 microseconds), i.e. tv_nsec = 200000000. -/
theorem wait_deadline_split_and_carry_witness :
    computeDeadline 300000 ⟨5, 900000⟩ = ⟨6, 200000000⟩ :=
  ((wait_deadline_split_and_carry 5 900000 300000 (by decide)
    (by decide)).1 (by decide)).trans (by decide)

/-- Claim C3: when `wait` reaches the timed wait and it returns
`EINVAL`, `wait` unlocks the mutex and returns false; when it returns
`EPERM`, `wait` returns false without unlocking; both anomaly paths
hand false to the caller. -/
theorem wait_einval_eperm_return_false (T : Nat) (now : Timeval) :
    (wait false T ⟨now, EINVAL⟩).retval = false ∧
    (wait false T ⟨now, EINVAL⟩).unlockCalled = true ∧
    (wait false T ⟨now, EINVAL⟩).calledTimedwait = true ∧
    (wait false T ⟨now, EPERM⟩).retval = false ∧
    (wait false T ⟨now, EPERM⟩).unlockCalled = false ∧
    (wait false T ⟨now, EPERM⟩).calledTimedwait = true :=
  ⟨rfl, rfl, rfl, rfl, rfl, rfl⟩

/-- Claim C4: with the `done` flag already true at entry, `wait`
returns false immediately: no deadline is computed, the mutex is never
locked, and no timed wait is performed. -/
theorem wait_done_returns_false_immediately (T : Nat) (env : WaitEnv) :
    wait true T env =
      { retval := false, deadline := none, lockedMutex := false,
        calledTimedwait := false, unlockCalled := false } :=
  rfl

/-- Claim C5: `stop_thread` attempts the join exactly when both
`running` and `attached` are true, and a join result of `ESRCH`,
`EINVAL` or `EDEADLK` produces no warning; the warning is emitted only
for a nonzero result outside those three tolerated codes. -/
theorem stop_thread_join_guard_and_tolerated_codes (env : StopEnv) :
    ((∃ rc, StopEvent.joinCall rc ∈ stop_thread env) ↔
      (env.running = true ∧ env.attached = true)) ∧
    (StopEvent.warn ∈ stop_thread env ↔
      (env.running = true ∧ env.attached = true ∧ env.joinRc ≠ 0 ∧
       env.joinRc ≠ ESRCH ∧ env.joinRc ≠ EINVAL ∧ env.joinRc ≠ EDEADLK)) := by
  rcases env with ⟨r, a, j⟩
  cases r <;> cases a <;>
    simp only [stop_thread, Bool.and_self, Bool.and_true, Bool.and_false,
      Bool.true_and, Bool.false_and, if_true, if_false] <;>
    split_ifs <;> simp_all

/-- Claim C6: in every execution of `stop_thread`, setting the `done`
flag occurs strictly before the condition variable is signaled: they
are the first and second events of the trace. -/
theorem stop_thread_done_set_before_signal (env : StopEnv) :
    List.indexOf StopEvent.setDone (stop_thread env) <
      List.indexOf StopEvent.signalCond (stop_thread env) ∧
    StopEvent.setDone ∈ stop_thread env ∧
    StopEvent.signalCond ∈ stop_thread env := by
  refine ⟨?_, ?_, ?_⟩
  · show (0 : Nat) < 1
    decide
  · exact List.mem_cons_self _ _
  · exact List.mem_cons_of_mem _ (List.mem_cons_self _ _)

/-- Claim C7: when `wait` reaches the timed wait, it returns true on
`ETIMEDOUT` and on every return code other than `ETIMEDOUT`, `EINVAL`
and `EPERM` (signal from `stop_thread`, spurious wake); indeed the
return value is true exactly when the code is neither `EINVAL` nor
`EPERM`. -/
theorem wait_returns_true_unless_einval_eperm (T : Nat) (now : Timeval)
    (rc : Nat) :
    (wait false T ⟨now, rc⟩).retval = true ↔ (rc ≠ EINVAL ∧ rc ≠ EPERM) := by
  simp only [wait, ETIMEDOUT, EINVAL, EPERM]
  split_ifs <;> simp_all

/-- Claim C8: `set_timeout` replaces only the configured timeout, and
each `wait` call reads the configured timeout once at entry to build
its deadline: the call made on the old state uses the old value and
the call made after `set_timeout` uses the new one. -/
theorem set_timeout_applies_to_next_wait (s : WrapperState) (tNew : Nat)
    (env : WaitEnv) (h : s.done = false) :
    (set_timeout s tNew).timeout = tNew ∧
    (set_timeout s tNew).done = s.done ∧
    (waitState s env).deadline = some (computeDeadline s.timeout env.now) ∧
    (waitState (set_timeout s tNew) env).deadline =
      some (computeDeadline tNew env.now) := by
  refine ⟨rfl, rfl, ?_, ?_⟩ <;>
    · simp only [waitState, set_timeout, wait, h]
      split_ifs <;> first | rfl | simp_all

/-- Claim C8 witness: a state with timeout 1000 and a reconfiguration
to 2000, under any wake reason. -/
theorem set_timeout_applies_to_next_wait_witness :
    (set_timeout ⟨false, 1000⟩ 2000).timeout = 2000 ∧
    (set_timeout ⟨false, 1000⟩ 2000).done = (⟨false, 1000⟩ : WrapperState).done ∧
    (waitState ⟨false, 1000⟩ ⟨⟨0, 0⟩, 110⟩).deadline =
      some (computeDeadline (⟨false, 1000⟩ : WrapperState).timeout ⟨0, 0⟩) ∧
    (waitState (set_timeout ⟨false, 1000⟩ 2000) ⟨⟨0, 0⟩, 110⟩).deadline =
      some (computeDeadline 2000 ⟨0, 0⟩) :=
  set_timeout_applies_to_next_wait ⟨false, 1000⟩ 2000 ⟨⟨0, 0⟩, 110⟩ rfl

/-- Claim C9: whenever `wait` reaches the timed wait and returns true
(the `ETIMEDOUT` case and every non-`EINVAL`, non-`EPERM` wake), the
mutex locked at the start of the call is never unlocked before
returning; and every `wait` call entered with `done` false locks the
mutex again. -/
theorem wait_true_returns_with_mutex_held (T : Nat) (now : Timeval)
    (rc : Nat) :
    ((wait false T ⟨now, rc⟩).retval = true →
      (wait false T ⟨now, rc⟩).lockedMutex = true ∧
      (wait false T ⟨now, rc⟩).unlockCalled = false) ∧
    (wait false T ⟨now, rc⟩).lockedMutex = true := by
  simp only [wait]
  split_ifs <;> simp_all

/-- Claim C10: when the current microseconds `U` plus the timeout
remainder sum to exactly one million, the strict comparison in the
carry branch does not fire: no second is carried and the computed
`tv_nsec` is exactly 1000000000, which is not inside the valid
nanosecond range `[0, 10^9)`. -/
theorem wait_deadline_boundary_nsec_overflow (S U T : Nat)
    (hU : U < MILLION) (hsum : U + T % MILLION = MILLION) :
    computeDeadline T ⟨S, U⟩ = ⟨S + T / MILLION, 1000000000⟩ ∧
    ¬ (computeDeadline T ⟨S, U⟩).tv_nsec < 1000000000 := by
  have hc : ¬ (U + T % MILLION > MILLION) := by
    rw [hsum]
    exact lt_irrefl _
  have hd : computeDeadline T ⟨S, U⟩ = ⟨S + T / MILLION, 1000000000⟩ := by
    simp only [computeDeadline]
    rw [if_neg hc, hsum]
    rfl
  exact ⟨hd, by rw [hd]; exact lt_irrefl _⟩

/-- Claim C10 witness: now = (0, 700000) and timeout 300000 hit the
boundary and produce tv_nsec = 1000000000. -/
theorem wait_deadline_boundary_nsec_overflow_witness :
    computeDeadline 300000 ⟨0, 700000⟩ = ⟨0 + 300000 / MILLION, 1000000000⟩ ∧
    ¬ (computeDeadline 300000 ⟨0, 700000⟩).tv_nsec < 1000000000 :=
  wait_deadline_boundary_nsec_overflow 0 700000 300000 (by decide) (by decide)

end apex
